import Mathlib

/-
Shallow embedding of extract-gl-client-prof.py (gluster-profile-analysis).

The embedding covers the core pipeline: the line-oriented state-machine
parser `parse_input` (the loop over `lines[2:]`; the collection metadata
parsed from the two header lines — `expected_sample_interval` and
`start_time` — appear as explicit parameters of the output generators),
the per-interval aggregation performed inside `gen_per_fop_stats`
(`FopProfile.accumulate` / `normalize_sum` / `get_pct_lat`), and the
tabular emitters `gen_output_bytes` / `gen_per_fop_stats`.

Python floats are modelled as rationals (ℚ), Python ints as ℤ, raised
exceptions as `Except PyErr`.  Output files are modelled as lists of
lines (one string per written line, without the trailing newline).
-/

namespace Gl

/-- PyErr enumerates the Python exception kinds the translated code can raise.
`duplicateFop` stands for the `raise Exception('did not expect fop already
defined: ...')` in `parse_input`. -/
inductive PyErr where
  | assertionError
  | valueError
  | indexError
  | keyError
  | typeError
  | zeroDivisionError
  | duplicateFop
deriving Repr, DecidableEq

set_option maxRecDepth 2048

/-- Decidable equality on `Except`, used to evaluate the embedded functions
on concrete inputs in witnesses and counterexamples. -/
instance {e a : Type} [DecidableEq e] [DecidableEq a] : DecidableEq (Except e a) := fun x y =>
  match x, y with
  | .error u, .error v =>
    if h : u = v then .isTrue (by rw [h]) else .isFalse (by simp [h])
  | .error _, .ok _ => .isFalse (by simp)
  | .ok _, .error _ => .isFalse (by simp)
  | .ok u, .ok v =>
    if h : u = v then .isTrue (by rw [h]) else .isFalse (by simp [h])

/-- hasSubAux checks whether `needle` occurs as a contiguous sublist of the
second argument (Python's `str.__contains__`). -/
def hasSubAux (needle : List Char) : List Char → Bool
  | [] => needle.isEmpty
  | c :: t => needle.isPrefixOf (c :: t) || hasSubAux needle t

/-- hasSub models Python's `sub in s` substring test. -/
def hasSub (s sub : String) : Bool := hasSubAux sub.toList s.toList

/-- isSpace recognizes the whitespace that `str.split()` splits on. -/
def isSpace (c : Char) : Bool := c = ' ' || c = '\t'

/-- splitAux accumulates the current word (reversed) while scanning. -/
def splitAux : List Char → List Char → List String
  | [], acc => if acc.isEmpty then [] else [String.mk acc.reverse]
  | c :: t, acc =>
    if isSpace c then
      if acc.isEmpty then splitAux t [] else String.mk acc.reverse :: splitAux t []
    else splitAux t (c :: acc)

/-- pySplit models Python's `str.split()` (split on whitespace runs, drop
empty fields). -/
def pySplit (s : String) : List String := splitAux s.toList []

/-- leadingCaps counts the leading characters in `A`-`Z`. -/
def leadingCaps : List Char → Nat
  | [] => 0
  | c :: t => if 'A' ≤ c && c ≤ 'Z' then leadingCaps t + 1 else 0

/-- all_caps_match models `re.compile('^[A-Z]{3,15}').match(ln)` being truthy:
the line starts with at least 3 capital letters. -/
def all_caps_match (s : String) : Bool := decide (3 ≤ leadingCaps s.toList)

/-- digitVal converts a decimal digit character. -/
def digitVal (c : Char) : Option Nat :=
  if '0' ≤ c && c ≤ '9' then some (c.toNat - '0'.toNat) else none

/-- parseDigitsAux folds decimal digits into a number, `none` on a non-digit. -/
def parseDigitsAux (acc : Nat) : List Char → Option Nat
  | [] => some acc
  | c :: t =>
    match digitVal c with
    | some d => parseDigitsAux (acc * 10 + d) t
    | none => none

/-- pyInt models Python's `int(s)` on decimal strings (ValueError otherwise). -/
def pyInt (s : String) : Except PyErr Int :=
  match s.toList with
  | '-' :: rest =>
    match parseDigitsAux 0 rest with
    | some n => if rest.isEmpty then .error .valueError else .ok (-(n : Int))
    | none => .error .valueError
  | '+' :: rest =>
    match parseDigitsAux 0 rest with
    | some n => if rest.isEmpty then .error .valueError else .ok (n : Int)
    | none => .error .valueError
  | l =>
    match parseDigitsAux 0 l with
    | some n => if l.isEmpty then .error .valueError else .ok (n : Int)
    | none => .error .valueError

/-- pyFloatVal combines an integer part and a fractional part into a rational;
`none` when both are absent. -/
def pyFloatVal (ip fr : List Char) : Option ℚ :=
  if ip.isEmpty && fr.isEmpty then none
  else
    match parseDigitsAux 0 ip, parseDigitsAux 0 fr with
    | some n, some f => some ((n : ℚ) + (f : ℚ) / ((10 ^ fr.length : ℕ) : ℚ))
    | _, _ => none

/-- pyFloat models Python's `float(s)` on plain decimal notation
(`digits`, `digits.digits`, `.digits`, `digits.`, optional sign), which is
the notation appearing in gluster profile logs. -/
def pyFloat (s : String) : Except PyErr ℚ :=
  let core : List Char → Except PyErr ℚ := fun l =>
    let ip := l.takeWhile (fun c => !(c = '.'))
    let rest := l.dropWhile (fun c => !(c = '.'))
    match rest with
    | [] =>
      match pyFloatVal ip [] with
      | some q => .ok q
      | none => .error .valueError
    | _ :: fr =>
      if fr.any (fun c => c = '.') then .error .valueError
      else
        match pyFloatVal ip fr with
        | some q => .ok q
        | none => .error .valueError
  match s.toList with
  | '-' :: t => (core t).map (fun q => -q)
  | '+' :: t => core t
  | t => core t

/-- pyIndex models Python sequence indexing `l[i]` (negative indices wrap,
IndexError out of range). -/
def pyIndex {α : Type} (l : List α) (i : Int) : Except PyErr α :=
  let j := if i < 0 then i + l.length else i
  if j < 0 then .error .indexError
  else
    match l.get? j.toNat with
    | some a => .ok a
    | none => .error .indexError

/-- pySetIndex models Python sequence element assignment `l[i] = a`. -/
def pySetIndex {α : Type} (l : List α) (i : Int) (a : α) : Except PyErr (List α) :=
  let j := if i < 0 then i + l.length else i
  if j < 0 then .error .indexError
  else if j.toNat < l.length then .ok (l.set j.toNat a)
  else .error .indexError

/-- padLeft right-justifies a string in a field of width `w` (printf `%w...`). -/
def padLeft (w : Nat) (s : String) : String :=
  String.mk (List.replicate (w - s.length) ' ') ++ s

/-- padRight left-justifies a string in a field of width `w` (printf `%-w...`). -/
def padRight (w : Nat) (s : String) : String :=
  s ++ String.mk (List.replicate (w - s.length) ' ')

/-- rhe rounds a rational to the nearest integer, ties to even (the rounding
used by printf `%.Nf` on floats). -/
def rhe (q : ℚ) : ℤ :=
  let f := ⌊q⌋
  let r := q - f
  if r < 1 / 2 then f
  else if 1 / 2 < r then f + 1
  else if f % 2 = 0 then f else f + 1

/-- fmtFixed renders a rational with exactly `prec` digits after the decimal
point (printf `%.precf`, without any field width). -/
def fmtFixed (prec : Nat) (q : ℚ) : String :=
  let scaled := rhe (q * ((10 ^ prec : ℕ) : ℚ))
  let sign := if scaled < 0 then "-" else ""
  let n := scaled.natAbs
  if prec = 0 then sign ++ toString n
  else
    let ip := n / 10 ^ prec
    let fr := n % 10 ^ prec
    let frs := toString fr
    sign ++ toString ip ++ "." ++ (String.mk (List.replicate (prec - frs.length) '0') ++ frs)

-- fields in gluster volume profile output

/-- stat_names lists the five statistic kinds emitted per FOP. -/
def stat_names : List String := ["pct-lat", "avg-lat", "min-lat", "max-lat", "call-rate"]

/-- directions lists the two byte-direction tables. -/
def directions : List String := ["MBps-read", "MBps-written"]

/-- min_lat_infinity is the sentinel `1.0e24` from the source. -/
def min_lat_infinity : ℚ := ((10 ^ 24 : ℕ) : ℚ)

/-- FopProfile stores the per-FOP statistics of one interval
(class `FopProfile` in the source; `pct_lat` starts at 0 and is computed
later by `get_pct_lat`). -/
structure FopProfile where
  avg_lat : ℚ
  min_lat : ℚ
  max_lat : ℚ
  calls : ℚ
  pct_lat : ℚ
deriving Repr, DecidableEq

/-- FopProfile.accumulate adds a component profile into a weighted-sum
accumulator (to be normalized later). -/
def FopProfile.accumulate (self addend : FopProfile) : FopProfile :=
  let s := { self with
               avg_lat := self.avg_lat + addend.avg_lat * addend.calls,
               calls := self.calls + addend.calls }
  if addend.calls > 0 then
    { s with max_lat := max s.max_lat addend.max_lat,
             min_lat := min s.min_lat addend.min_lat }
  else s

/-- FopProfile.normalize_sum turns the weighted total into an average; on
ZeroDivisionError (no calls) it zeroes `pct_lat` and `avg_lat`. -/
def FopProfile.normalize_sum (self : FopProfile) : FopProfile :=
  if self.calls = 0 then { self with pct_lat := 0, avg_lat := 0 }
  else { self with avg_lat := self.avg_lat / self.calls }

/-- FopProfile.get_pct_lat computes the percentage latency of this FOP given
the total latency of all FOPs; on ZeroDivisionError it sets 0. -/
def FopProfile.get_pct_lat (self : FopProfile) (total_lat : ℚ) : FopProfile :=
  if total_lat = 0 then { self with pct_lat := 0 }
  else { self with pct_lat := 100 * (self.avg_lat * self.calls) / total_lat }

/-- FopProfile.field2str renders a single csv field for statistic `stat`
(`duration` is the interval's recorded duration, used only for `call-rate`;
`float(None)` is a TypeError, division by zero a ZeroDivisionError; an
unknown statistic returns Python `None`, modelled as a TypeError at the
point of use). -/
def FopProfile.field2str (self : FopProfile) (stat : String) (duration : Option ℤ) :
    Except PyErr String :=
  if stat = stat_names.getD 0 "" then .ok (padRight 6 (fmtFixed 2 self.pct_lat))
  else if stat = stat_names.getD 1 "" then .ok (padLeft 8 (fmtFixed 0 self.avg_lat))
  else if stat = stat_names.getD 2 "" then
    .ok (if self.min_lat = min_lat_infinity then "" else padLeft 8 (fmtFixed 0 self.min_lat))
  else if stat = stat_names.getD 3 "" then
    .ok (if self.max_lat = 0 then "" else padLeft 8 (fmtFixed 0 self.max_lat))
  else if stat = stat_names.getD 4 "" then
    match duration with
    | none => .error .typeError
    | some d =>
      if (d : ℚ) = 0 then .error .zeroDivisionError
      else .ok (padLeft 10 (fmtFixed 3 (self.calls / (d : ℚ))))
  else .error .typeError

/-- ProfileInterval is one parsed sampling interval (class `ProfileInterval`);
the python dict `fop_profiles` is modelled as an insertion-ordered
association list with unique keys. -/
structure ProfileInterval where
  bytes_read : Option ℤ
  bytes_written : Option ℤ
  duration : Option ℤ
  fop_profiles : List (String × FopProfile)
deriving Repr, DecidableEq

/-- ProfileInterval.init is the freshly constructed interval (all fields
`None`, empty dict). -/
def ProfileInterval.init : ProfileInterval :=
  { bytes_read := none, bytes_written := none, duration := none, fop_profiles := [] }

/-- lookupFop models `dict.__getitem__` returning `some` value or `none`. -/
def lookupFop : List (String × FopProfile) → String → Option FopProfile
  | [], _ => none
  | p :: rest, k => if p.1 = k then some p.2 else lookupFop rest k

/-- setFop models `dict.__setitem__`: replace the value at an existing key,
else append a new entry. -/
def setFop : List (String × FopProfile) → String → FopProfile → List (String × FopProfile)
  | [], k, v => [(k, v)]
  | p :: rest, k, v => if p.1 = k then (k, v) :: rest else p :: setFop rest k v

/-- addName models `set.add` on the accumulated fop-name set (kept as a
duplicate-free list in first-seen order; the order is irrelevant because the
set is sorted before use). -/
def addName (l : List String) (n : String) : List String :=
  if n ∈ l then l else l ++ [n]

/-- insertSorted inserts into a lexicographically sorted list. -/
def insertSorted (s : String) : List String → List String
  | [] => [s]
  | x :: t => if s ≤ x then s :: x :: t else x :: insertSorted s t

/-- sortStrings models Python's `sorted` on a set of strings. -/
def sortStrings (l : List String) : List String := l.foldr insertSorted []

/-- ParseState is the mutable state of the `parse_input` loop. -/
structure ParseState where
  found_cumulative_output : Bool
  found_interval_output : Bool
  fop_names : List String
  last_intvl : ℤ
  intvl : ℤ
  sample : ℤ
  intervals : List ProfileInterval
deriving Repr, DecidableEq

/-- initState is the loop state before the first data line
(`found_cumulative_output = found_interval_output = False`,
`last_intvl = -2`, `intvl = -1`, `sample = -1`). -/
def initState : ParseState :=
  { found_cumulative_output := false, found_interval_output := false,
    fop_names := [], last_intvl := -2, intvl := -1, sample := -1, intervals := [] }

/-- pyFloatTok parses `float(tokens[i])`. -/
def pyFloatTok (tokens : List String) (i : ℤ) : Except PyErr ℚ :=
  match pyIndex tokens i with
  | .error e => .error e
  | .ok t => pyFloat t

/-- storeDuration performs `intervals[intvl].duration = d`. -/
def storeDuration (st : ParseState) (d : ℤ) : Except PyErr ParseState :=
  match pyIndex st.intervals st.intvl with
  | .error e => .error e
  | .ok iv =>
    match pySetIndex st.intervals st.intvl { iv with duration := some d } with
    | .error e => .error e
    | .ok ivs => .ok { st with intervals := ivs }

/-- storeBytesRead performs `intervals[intvl].bytes_read = int(tokens[2])`
(the interval object is fetched before the integer is parsed, as in the
source). -/
def storeBytesRead (st : ParseState) (tokens : List String) : Except PyErr ParseState :=
  match pyIndex st.intervals st.intvl with
  | .error e => .error e
  | .ok iv =>
    match pyIndex tokens 2 with
    | .error e => .error e
    | .ok t =>
      match pyInt t with
      | .error e => .error e
      | .ok d =>
        match pySetIndex st.intervals st.intvl { iv with bytes_read := some d } with
        | .error e => .error e
        | .ok ivs => .ok { st with intervals := ivs }

/-- storeBytesWritten performs `intervals[intvl].bytes_written = int(tokens[2])`. -/
def storeBytesWritten (st : ParseState) (tokens : List String) : Except PyErr ParseState :=
  match pyIndex st.intervals st.intvl with
  | .error e => .error e
  | .ok iv =>
    match pyIndex tokens 2 with
    | .error e => .error e
    | .ok t =>
      match pyInt t with
      | .error e => .error e
      | .ok d =>
        match pySetIndex st.intervals st.intvl { iv with bytes_written := some d } with
        | .error e => .error e
        | .ok ivs => .ok { st with intervals := ivs }

/-- fop_row_step is the operation-row branch of the loop body: fetch the
current interval, read the fop name, add it to the global name set, parse
(in source order) `float(tokens[2])`, `float(tokens[4])`, `float(tokens[6])`,
`float(tokens[1])`, raise on a duplicate name in this interval, else insert
the new `FopProfile` and bump `sample`. -/
def fop_row_step (st : ParseState) (tokens : List String) : Except PyErr ParseState :=
  match pyIndex st.intervals st.intvl with
  | .error e => .error e
  | .ok iv =>
    match pyIndex tokens 0 with
    | .error e => .error e
    | .ok fop_name =>
      match pyFloatTok tokens 2 with
      | .error e => .error e
      | .ok avg =>
        match pyFloatTok tokens 4 with
        | .error e => .error e
        | .ok minv =>
          match pyFloatTok tokens 6 with
          | .error e => .error e
          | .ok maxv =>
            match pyFloatTok tokens 1 with
            | .error e => .error e
            | .ok calls =>
              if (lookupFop iv.fop_profiles fop_name).isSome then .error .duplicateFop
              else
                match pySetIndex st.intervals st.intvl
                    { iv with fop_profiles := iv.fop_profiles
                        ++ [(fop_name, FopProfile.mk avg minv maxv calls 0)] } with
                | .error e => .error e
                | .ok ivs =>
                  .ok { st with sample := st.sample + 1,
                                fop_names := addName st.fop_names fop_name,
                                intervals := ivs }

/-- parse_line is one iteration of the `for ln in lines[2:]` loop of
`parse_input`: the elif chain dispatching on substring markers.  The
sampling-interval deviation check in the Duration branch only prints a
warning and is omitted (no state effect). -/
def parse_line (st : ParseState) (ln : String) : Except PyErr ParseState :=
  let tokens := pySplit ln
  if hasSub ln "Interval" && hasSub ln "stats" then
    match pyIndex tokens 2 with
    | .error e => .error e
    | .ok t =>
      match pyInt t with
      | .error e => .error e
      | .ok _interval_number =>
        if st.intvl = st.last_intvl + 1 then
          .ok { st with last_intvl := st.intvl, intvl := st.intvl + 1,
                        intervals := st.intervals ++ [ProfileInterval.init],
                        found_interval_output := true }
        else .error .assertionError
  else if hasSub ln "Cumulative Stats" then
    .ok { st with found_cumulative_output := true }
  else if hasSub ln "Duration :" then
    if xor st.found_cumulative_output st.found_interval_output then
      match pyIndex tokens 2 with
      | .error e => .error e
      | .ok t =>
        match pyInt t with
        | .error e => .error e
        | .ok d => if st.found_interval_output then storeDuration st d else .ok st
    else .error .assertionError
  else if hasSub ln "BytesRead" then
    if st.found_interval_output then storeBytesRead st tokens else .ok st
  else if hasSub ln "BytesWritten" then
    if st.found_interval_output then storeBytesWritten st tokens else .ok st
  else if hasSub ln "Cumulative stats" then
    .ok { st with found_interval_output := false, found_cumulative_output := true }
  else if hasSub ln "Current open fd" then
    .ok { st with found_cumulative_output := false }
  else if st.found_interval_output && all_caps_match ln then
    fop_row_step st tokens
  else .ok st

/-- parse_lines folds `parse_line` over the data lines. -/
def parse_lines : ParseState → List String → Except PyErr ParseState
  | st, [] => .ok st
  | st, ln :: rest =>
    match parse_line st ln with
    | .error e => .error e
    | .ok st2 => parse_lines st2 rest

/-- parse_input runs the loop from the initial state and returns the interval
sequence together with `sorted_fop_names` (the argument is `lines[2:]`, the
stripped data lines after the two header lines). -/
def parse_input (lines : List String) : Except PyErr (List ProfileInterval × List String) :=
  (parse_lines initState lines).map fun st => (st.intervals, sortStrings st.fop_names)

/-- gen_timestamp_ms computes the pbench timestamp column for a sample index
(`start_time` is already in milliseconds). -/
def gen_timestamp_ms (start_time expected_sample_interval : ℤ) (sample_index : ℤ) : ℤ :=
  start_time + expected_sample_interval * sample_index * 1000

/-- get_interval yields the denominator for rate computations based on
duration type. -/
def get_interval (expected_sample_interval : ℤ) (interval_index : ℕ)
    (duration_type : String) : ℚ :=
  if duration_type = "cumulative" then (interval_index : ℚ) * (expected_sample_interval : ℚ)
  else (expected_sample_interval : ℚ)

/-- bytes_body is the statistic part of one `gen_output_bytes` data row:
the interval's byte counter for `direction` converted to MB/s
(`(transfer / rate_interval) / bytes_per_MB`, printf `%-8.3f`).
A `None` byte counter would be a TypeError, a zero sampling interval a
ZeroDivisionError. -/
def bytes_body (expected_sample_interval : ℤ) (direction : String) (j : ℕ)
    (iv : ProfileInterval) : Except PyErr String :=
  match (if hasSub direction "read" then iv.bytes_read else iv.bytes_written) with
  | none => .error .typeError
  | some transfer =>
    if get_interval expected_sample_interval j "interval" = 0 then .error .zeroDivisionError
    else .ok (padRight 8 (fmtFixed 3
      ((transfer : ℚ) / get_interval expected_sample_interval j "interval" / 1000000)))

/-- bytes_row is one full `gen_output_bytes` data row: the optional pbench
timestamp prefix (`'%d, '`) followed by the MB/s field. -/
def bytes_row (pbench_graphs : Bool) (start_time expected_sample_interval : ℤ)
    (direction : String) (j : ℕ) (iv : ProfileInterval) : Except PyErr String :=
  (bytes_body expected_sample_interval direction j iv).map fun body =>
    (if pbench_graphs then
        toString (gen_timestamp_ms start_time expected_sample_interval j) ++ ", "
      else "") ++ body

/-- gen_bytes_rows emits one row per interval (`for j in range(0, len(intervals))`). -/
def gen_bytes_rows (pbench_graphs : Bool) (start_time expected_sample_interval : ℤ)
    (direction : String) : ℕ → List ProfileInterval → Except PyErr (List String)
  | _, [] => .ok []
  | j, iv :: rest =>
    match bytes_row pbench_graphs start_time expected_sample_interval direction j iv with
    | .error e => .error e
    | .ok r =>
      match gen_bytes_rows pbench_graphs start_time expected_sample_interval direction
              (j + 1) rest with
      | .error e => .error e
      | .ok rs => .ok (r :: rs)

/-- gen_output_bytes produces the lines of one byte-direction csv file:
the header (`'timestamp_ms, '` prefix when pbench graphing is on, then
`'MB/s'`) followed by one MB/s row per interval. -/
def gen_output_bytes (pbench_graphs : Bool) (start_time expected_sample_interval : ℤ)
    (intervals : List ProfileInterval) (direction : String) : Except PyErr (List String) :=
  match gen_bytes_rows pbench_graphs start_time expected_sample_interval direction
          0 intervals with
  | .error e => .error e
  | .ok rows => .ok (((if pbench_graphs then "timestamp_ms, " else "") ++ "MB/s") :: rows)

/-- accumFrom folds `all_fop_profile.accumulate(fops_in_interval[fop])` over
the sorted fop names; a missing name is the uncaught KeyError of
`gen_per_fop_stats`. -/
def accumFrom (m : List (String × FopProfile)) :
    FopProfile → List String → Except PyErr FopProfile
  | acc, [] => .ok acc
  | acc, f :: rest =>
    match lookupFop m f with
    | some fp => accumFrom m (acc.accumulate fp) rest
    | none => .error .keyError

/-- pct_update folds the second loop of `gen_per_fop_stats` over the sorted
fop names: look up each fop's stats (uncaught KeyError when missing) and
store back the record with `pct_lat` recomputed by `get_pct_lat`.  The
source's `try/except KeyError` after the lookup is a no-op (the key was just
read successfully). -/
def pct_update (total_lat : ℚ) :
    List (String × FopProfile) → List String → Except PyErr (List (String × FopProfile))
  | m, [] => .ok m
  | m, f :: rest =>
    match lookupFop m f with
    | some fp => pct_update total_lat (setFop m f (fp.get_pct_lat total_lat)) rest
    | none => .error .keyError

/-- agg_interval is the per-interval aggregation pass of `gen_per_fop_stats`:
build the synthetic all-FOPs accumulator (`FopProfile(0, 0, 0, 0)`),
normalize it, and write each operation's percentage latency (denominator
`all_fop_profile.avg_lat * all_fop_profile.calls`) back into the interval. -/
def agg_interval (sorted_fop_names : List String) (iv : ProfileInterval) :
    Except PyErr ProfileInterval :=
  match accumFrom iv.fop_profiles (FopProfile.mk 0 0 0 0 0) sorted_fop_names with
  | .error e => .error e
  | .ok all0 =>
    match pct_update (all0.normalize_sum.avg_lat * all0.normalize_sum.calls)
            iv.fop_profiles sorted_fop_names with
    | .error e => .error e
    | .ok m => .ok { iv with fop_profiles := m }

/-- gen_columns renders the per-FOP statistic columns of one interval, in
sorted name order, reading the profiles updated by the aggregation pass
(a missing name is the uncaught KeyError of the column loop). -/
def gen_columns (stat : String) (duration : Option ℤ)
    (m : List (String × FopProfile)) : List String → Except PyErr (List String)
  | [] => .ok []
  | f :: rest =>
    match lookupFop m f with
    | none => .error .keyError
    | some fp =>
      match fp.field2str stat duration with
      | .error e => .error e
      | .ok s =>
        match gen_columns stat duration m rest with
        | .error e => .error e
        | .ok cols => .ok (s :: cols)

/-- per_fop_body aggregates one interval and renders its statistic columns
(joined with `','` as in `','.join(columns)`). -/
def per_fop_body (stat : String) (sorted_fop_names : List String) (iv : ProfileInterval) :
    Except PyErr (String × ProfileInterval) :=
  match agg_interval sorted_fop_names iv with
  | .error e => .error e
  | .ok iv2 =>
    match gen_columns stat iv2.duration iv2.fop_profiles sorted_fop_names with
    | .error e => .error e
    | .ok columns => .ok (String.intercalate "," columns, iv2)

/-- per_fop_row is one full `gen_per_fop_stats` data row: optional pbench
timestamp prefix followed by the statistic columns; it also returns the
interval with the written-back `pct_lat` values. -/
def per_fop_row (pbench_graphs : Bool) (start_time expected_sample_interval : ℤ)
    (stat : String) (sorted_fop_names : List String) (i : ℕ) (iv : ProfileInterval) :
    Except PyErr (String × ProfileInterval) :=
  (per_fop_body stat sorted_fop_names iv).map fun p =>
    ((if pbench_graphs then
        toString (gen_timestamp_ms start_time expected_sample_interval i) ++ ", "
      else "") ++ p.1, p.2)

/-- gen_fop_rows emits one row per interval
(`for i in range(0, len(intervals))`), threading the mutated intervals. -/
def gen_fop_rows (pbench_graphs : Bool) (start_time expected_sample_interval : ℤ)
    (stat : String) (sorted_fop_names : List String) :
    ℕ → List ProfileInterval → Except PyErr (List String × List ProfileInterval)
  | _, [] => .ok ([], [])
  | i, iv :: rest =>
    match per_fop_row pbench_graphs start_time expected_sample_interval stat
            sorted_fop_names i iv with
    | .error e => .error e
    | .ok p =>
      match gen_fop_rows pbench_graphs start_time expected_sample_interval stat
              sorted_fop_names (i + 1) rest with
      | .error e => .error e
      | .ok prest => .ok (p.1 :: prest.1, p.2 :: prest.2)

/-- gen_per_fop_stats produces the lines of one per-statistic csv file
(header then one row per interval) together with the interval sequence
after the aggregation pass wrote back the `pct_lat` fields. -/
def gen_per_fop_stats (pbench_graphs : Bool) (start_time expected_sample_interval : ℤ)
    (sorted_fop_names : List String) (intervals : List ProfileInterval) (stat : String) :
    Except PyErr (List String × List ProfileInterval) :=
  match gen_fop_rows pbench_graphs start_time expected_sample_interval stat
          sorted_fop_names 0 intervals with
  | .error e => .error e
  | .ok p =>
    .ok (((if pbench_graphs then "timestamp_ms, " else "")
            ++ String.intercalate "," sorted_fop_names) :: p.1, p.2)

/-- fopOrDefault looks a name up, defaulting to an all-zero record (the
default is never reached in the theorems below, whose hypotheses force every
lookup to succeed). -/
def fopOrDefault (m : List (String × FopProfile)) (f : String) : FopProfile :=
  (lookupFop m f).getD (FopProfile.mk 0 0 0 0 0)

/-- spec_total_calls is, following the spec's words, the sum of `op.calls`
over the operation names. -/
def spec_total_calls (names : List String) (m : List (String × FopProfile)) : ℚ :=
  (names.map fun f => (fopOrDefault m f).calls).sum

/-- spec_weighted_latency is, following the spec's words, the sum of
`op.avg_latency_usec * op.calls` over the operation names. -/
def spec_weighted_latency (names : List String) (m : List (String × FopProfile)) : ℚ :=
  (names.map fun f => (fopOrDefault m f).avg_lat * (fopOrDefault m f).calls).sum

/-- spec_combined_avg_latency is, following the spec's words, the
call-weighted average latency, defined as 0 when there are no calls. -/
def spec_combined_avg_latency (names : List String) (m : List (String × FopProfile)) : ℚ :=
  if spec_total_calls names m = 0 then 0
  else spec_weighted_latency names m / spec_total_calls names m

/-- spec_pct_latency is, following the spec's words, the claimed value
`100 * (op.avg_latency_usec * op.calls) /
(combined_avg_latency * total_calls)`, defined as 0 when the denominator
is 0. -/
def spec_pct_latency (names : List String) (m : List (String × FopProfile))
    (fp : FopProfile) : ℚ :=
  let d := spec_combined_avg_latency names m * spec_total_calls names m
  if d = 0 then 0 else 100 * (fp.avg_lat * fp.calls) / d

/-- sameRaw relates two FOP records that agree on every parsed field (all
fields except the derived `pct_lat`). -/
def sameRaw (a b : FopProfile) : Prop :=
  a.avg_lat = b.avg_lat ∧ a.min_lat = b.min_lat ∧ a.max_lat = b.max_lat ∧ a.calls = b.calls

theorem sameRaw_trans {a b c : FopProfile} (h1 : sameRaw a b) (h2 : sameRaw b c) :
    sameRaw a c :=
  ⟨h1.1.trans h2.1, h1.2.1.trans h2.2.1, h1.2.2.1.trans h2.2.2.1, h1.2.2.2.trans h2.2.2.2⟩

theorem accumulate_calls (a b : FopProfile) :
    (a.accumulate b).calls = a.calls + b.calls := by
  simp only [FopProfile.accumulate]
  split <;> rfl

theorem accumulate_avg (a b : FopProfile) :
    (a.accumulate b).avg_lat = a.avg_lat + b.avg_lat * b.calls := by
  simp only [FopProfile.accumulate]
  split <;> rfl

theorem get_pct_lat_raw (a : FopProfile) (t : ℚ) : sameRaw (a.get_pct_lat t) a := by
  unfold FopProfile.get_pct_lat
  split <;> exact ⟨rfl, rfl, rfl, rfl⟩

theorem get_pct_lat_idem (a : FopProfile) (t : ℚ) :
    (a.get_pct_lat t).get_pct_lat t = a.get_pct_lat t := by
  unfold FopProfile.get_pct_lat
  split <;> simp_all

theorem lookupFop_setFop_self (m : List (String × FopProfile)) (k : String)
    (v : FopProfile) : lookupFop (setFop m k v) k = some v := by
  induction m with
  | nil => simp [setFop, lookupFop]
  | cons p rest ih =>
    by_cases h : p.1 = k
    · simp [setFop, lookupFop, h]
    · simp [setFop, lookupFop, h, ih]

theorem lookupFop_setFop_ne (m : List (String × FopProfile)) (k f : String)
    (v : FopProfile) (hne : f ≠ k) : lookupFop (setFop m k v) f = lookupFop m f := by
  have hkf : ¬(k = f) := fun h => hne h.symm
  induction m with
  | nil => simp [setFop, lookupFop, hkf]
  | cons p rest ih =>
    by_cases h : p.1 = k
    · have hpf : ¬(p.1 = f) := by rw [h]; exact hkf
      simp [setFop, lookupFop, h, hkf, hpf]
    · simp [setFop, lookupFop, h, ih]

theorem setFop_map_fst (m : List (String × FopProfile)) (k : String)
    (g v : FopProfile) (hl : lookupFop m k = some g) :
    (setFop m k v).map Prod.fst = m.map Prod.fst := by
  induction m with
  | nil => simp [lookupFop] at hl
  | cons p rest ih =>
    by_cases h : p.1 = k
    · simp [setFop, h]
    · rw [lookupFop, if_neg h] at hl
      simp [setFop, h, ih hl]

theorem accumFrom_sum (names : List String) :
    ∀ (m : List (String × FopProfile)) (acc a : FopProfile),
    accumFrom m acc names = .ok a →
    a.calls = acc.calls + spec_total_calls names m ∧
    a.avg_lat = acc.avg_lat + spec_weighted_latency names m := by
  induction names with
  | nil =>
    intro m acc a h
    simp [accumFrom] at h
    subst h
    simp [spec_total_calls, spec_weighted_latency]
  | cons f rest ih =>
    intro m acc a h
    rw [accumFrom] at h
    cases hl : lookupFop m f with
    | none => rw [hl] at h; exact absurd h (by simp)
    | some fp =>
      rw [hl] at h
      obtain ⟨h1, h2⟩ := ih m (acc.accumulate fp) a h
      constructor
      · rw [h1, accumulate_calls]
        simp only [spec_total_calls, List.map_cons, List.sum_cons, fopOrDefault, hl,
          Option.getD_some]
        ring
      · rw [h2, accumulate_avg]
        simp only [spec_weighted_latency, List.map_cons, List.sum_cons, fopOrDefault, hl,
          Option.getD_some]
        ring

theorem accumFrom_err (names : List String) :
    ∀ (m : List (String × FopProfile)) (acc : FopProfile) (f : String),
    f ∈ names → lookupFop m f = none →
    accumFrom m acc names = .error .keyError := by
  induction names with
  | nil => intro m acc f hf _; exact absurd hf (List.not_mem_nil f)
  | cons g rest ih =>
    intro m acc f hf hl
    rw [accumFrom]
    cases hg : lookupFop m g with
    | none => rfl
    | some fpg =>
      have hne : f ≠ g := by
        intro he
        rw [he, hg] at hl
        exact Option.noConfusion hl
      exact ih m (acc.accumulate fpg) f ((List.mem_cons.mp hf).resolve_left hne) hl

theorem pct_update_not_mem (t : ℚ) (names : List String) :
    ∀ (m m2 : List (String × FopProfile)) (f : String),
    pct_update t m names = .ok m2 → f ∉ names →
    lookupFop m2 f = lookupFop m f := by
  induction names with
  | nil =>
    intro m m2 f h _
    simp [pct_update] at h
    rw [h]
  | cons g rest ih =>
    intro m m2 f h hf
    rw [pct_update] at h
    cases hg : lookupFop m g with
    | none => rw [hg] at h; exact absurd h (by simp)
    | some fpg =>
      rw [hg] at h
      have hne : f ≠ g := fun he => hf (he ▸ List.mem_cons_self g rest)
      have hfr : f ∉ rest := fun hr => hf (List.mem_cons_of_mem g hr)
      rw [ih _ _ f h hfr, lookupFop_setFop_ne _ _ _ _ hne]

theorem pct_update_lookup (t : ℚ) (names : List String) :
    ∀ (m m2 : List (String × FopProfile)) (f : String) (fp : FopProfile),
    pct_update t m names = .ok m2 → lookupFop m f = some fp → f ∈ names →
    lookupFop m2 f = some (fp.get_pct_lat t) := by
  induction names with
  | nil => intro m m2 f fp _ _ hf; exact absurd hf (List.not_mem_nil f)
  | cons g rest ih =>
    intro m m2 f fp h hl hf
    rw [pct_update] at h
    cases hg : lookupFop m g with
    | none => rw [hg] at h; exact absurd h (by simp)
    | some fpg =>
      rw [hg] at h
      by_cases hfg : f = g
      · subst hfg
        have hfpg : fpg = fp := by rw [hl] at hg; exact (Option.some.inj hg).symm
        subst hfpg
        by_cases hfr : f ∈ rest
        · have := ih _ _ f (fpg.get_pct_lat t) h (lookupFop_setFop_self m f _) hfr
          rw [this, get_pct_lat_idem]
        · rw [pct_update_not_mem t rest _ _ f h hfr]
          exact lookupFop_setFop_self m f _
      · have hl1 : lookupFop (setFop m g (fpg.get_pct_lat t)) f = some fp := by
          rw [lookupFop_setFop_ne _ _ _ _ hfg]; exact hl
        have hfr : f ∈ rest := (List.mem_cons.mp hf).resolve_left hfg
        exact ih _ _ f fp h hl1 hfr

theorem pct_update_map_fst (t : ℚ) (names : List String) :
    ∀ (m m2 : List (String × FopProfile)),
    pct_update t m names = .ok m2 → m2.map Prod.fst = m.map Prod.fst := by
  induction names with
  | nil =>
    intro m m2 h
    simp [pct_update] at h
    rw [h]
  | cons g rest ih =>
    intro m m2 h
    rw [pct_update] at h
    cases hg : lookupFop m g with
    | none => rw [hg] at h; exact absurd h (by simp)
    | some fpg =>
      rw [hg] at h
      rw [ih _ _ h, setFop_map_fst m g fpg _ hg]

theorem lookupFop_setFop_inv (m : List (String × FopProfile)) (k f : String)
    (v w : FopProfile) (h : lookupFop (setFop m k v) f = some w) :
    (f = k ∧ w = v) ∨ lookupFop m f = some w := by
  by_cases hfk : f = k
  · subst hfk
    rw [lookupFop_setFop_self] at h
    exact Or.inl ⟨rfl, (Option.some.inj h).symm⟩
  · rw [lookupFop_setFop_ne _ _ _ _ hfk] at h
    exact Or.inr h

theorem pct_update_frame (t : ℚ) (names : List String) :
    ∀ (m m2 : List (String × FopProfile)),
    pct_update t m names = .ok m2 →
    ∀ (k : String) (fp2 : FopProfile), lookupFop m2 k = some fp2 →
    ∃ fp, lookupFop m k = some fp ∧ sameRaw fp2 fp := by
  induction names with
  | nil =>
    intro m m2 h k fp2 hk
    simp [pct_update] at h
    subst h
    exact ⟨fp2, hk, ⟨rfl, rfl, rfl, rfl⟩⟩
  | cons g rest ih =>
    intro m m2 h k fp2 hk
    rw [pct_update] at h
    cases hg : lookupFop m g with
    | none => rw [hg] at h; exact absurd h (by simp)
    | some fpg =>
      rw [hg] at h
      obtain ⟨fp1, hfp1, hraw1⟩ := ih _ _ h k fp2 hk
      rcases lookupFop_setFop_inv m g k (fpg.get_pct_lat t) fp1 hfp1 with ⟨hkg, hv⟩ | hm
      · subst hkg
        refine ⟨fpg, hg, sameRaw_trans hraw1 ?_⟩
        rw [hv]
        exact get_pct_lat_raw fpg t
      · exact ⟨fp1, hm, hraw1⟩

theorem agg_interval_ok (names : List String) (iv iv2 : ProfileInterval)
    (h : agg_interval names iv = .ok iv2) :
    ∃ a m2,
      accumFrom iv.fop_profiles (FopProfile.mk 0 0 0 0 0) names = .ok a ∧
      pct_update (a.normalize_sum.avg_lat * a.normalize_sum.calls)
        iv.fop_profiles names = .ok m2 ∧
      iv2 = { iv with fop_profiles := m2 } := by
  unfold agg_interval at h
  cases ha : accumFrom iv.fop_profiles (FopProfile.mk 0 0 0 0 0) names with
  | error e => rw [ha] at h; exact absurd h (by simp)
  | ok a =>
    rw [ha] at h
    have h2 : (match pct_update (a.normalize_sum.avg_lat * a.normalize_sum.calls)
                  iv.fop_profiles names with
               | Except.error e => (Except.error e : Except PyErr ProfileInterval)
               | Except.ok m => Except.ok { iv with fop_profiles := m })
        = Except.ok iv2 := h
    cases hm : pct_update (a.normalize_sum.avg_lat * a.normalize_sum.calls)
                 iv.fop_profiles names with
    | error e => rw [hm] at h2; exact absurd h2 (by simp)
    | ok m2 =>
      rw [hm] at h2
      refine ⟨a, m2, ?_, ?_, (Except.ok.inj h2).symm⟩
      · rfl
      · exact hm

/-- exIv is the round-trip scenario interval of the spec: READ with
calls=10, avg=100 and WRITE with calls=5, avg=200 (5-second interval,
5,000,000 bytes written). -/
def exIv : ProfileInterval :=
  { bytes_read := some 0, bytes_written := some 5000000, duration := some 5,
    fop_profiles := [("READ", FopProfile.mk 100 50 200 10 0),
                     ("WRITE", FopProfile.mk 200 60 300 5 0)] }

/-- exIvAgg is `exIv` after the aggregation pass: both operations end up
with `pct_lat = 50`. -/
def exIvAgg : ProfileInterval :=
  { bytes_read := some 0, bytes_written := some 5000000, duration := some 5,
    fop_profiles := [("READ", FopProfile.mk 100 50 200 10 50),
                     ("WRITE", FopProfile.mk 200 60 300 5 50)] }

/-- C1: for every aggregated interval and every operation in it, the written
back `pct_lat` equals the spec formula
`100 * (op.avg_latency_usec * op.calls) / (combined_avg_latency * total_calls)`
with the call-weighted combined average, and 0 when the denominator is 0. -/
theorem C1_pct_latency (names : List String) (iv iv2 : ProfileInterval) (f : String)
    (fp fp2 : FopProfile)
    (hagg : agg_interval names iv = .ok iv2)
    (hf : f ∈ names)
    (hfp : lookupFop iv.fop_profiles f = some fp)
    (hfp2 : lookupFop iv2.fop_profiles f = some fp2) :
    fp2.pct_lat = spec_pct_latency names iv.fop_profiles fp := by
  obtain ⟨a, m2, ha, hm, hiv2⟩ := agg_interval_ok names iv iv2 hagg
  subst hiv2
  have hfp2m : lookupFop m2 f = some fp2 := hfp2
  have hlk := pct_update_lookup (a.normalize_sum.avg_lat * a.normalize_sum.calls)
                names iv.fop_profiles m2 f fp hm hfp hf
  rw [hfp2m] at hlk
  have hfp2eq : fp2
      = fp.get_pct_lat (a.normalize_sum.avg_lat * a.normalize_sum.calls) :=
    Option.some.inj hlk
  obtain ⟨hc, hw⟩ := accumFrom_sum names iv.fop_profiles (FopProfile.mk 0 0 0 0 0) a ha
  simp only [zero_add] at hc hw
  rw [hfp2eq]
  by_cases hT : spec_total_calls names iv.fop_profiles = 0
  · have haC : a.calls = 0 := by rw [hc, hT]
    have h1 : a.normalize_sum.avg_lat = 0 := by
      simp [FopProfile.normalize_sum, haC]
    have h2 : a.normalize_sum.calls = 0 := by
      simp [FopProfile.normalize_sum, haC]
    rw [h1]
    simp [FopProfile.get_pct_lat, spec_pct_latency, spec_combined_avg_latency, hT]
  · have haC : a.calls ≠ 0 := by rw [hc]; exact hT
    have h1 : a.normalize_sum.avg_lat
        = spec_weighted_latency names iv.fop_profiles
          / spec_total_calls names iv.fop_profiles := by
      simp only [FopProfile.normalize_sum, if_neg haC]
      rw [hw, hc]
    have h2 : a.normalize_sum.calls = spec_total_calls names iv.fop_profiles := by
      simp only [FopProfile.normalize_sum, if_neg haC]
      exact hc
    rw [h1, h2, div_mul_cancel₀ _ hT]
    simp only [spec_pct_latency, spec_combined_avg_latency, if_neg hT]
    rw [div_mul_cancel₀ _ hT]
    by_cases hW : spec_weighted_latency names iv.fop_profiles = 0
    · simp [FopProfile.get_pct_lat, hW]
    · simp [FopProfile.get_pct_lat, hW]

theorem exIv_accum_eval : accumFrom exIv.fop_profiles (FopProfile.mk 0 0 0 0 0)
    ["READ", "WRITE"] = .ok (FopProfile.mk 2000 0 300 15 0) := by
  with_unfolding_all decide

theorem exIv_norm_eval : (FopProfile.mk 2000 0 300 15 0).normalize_sum
    = FopProfile.mk (2000 / 15) 0 300 15 0 := by
  norm_num [FopProfile.normalize_sum]

theorem exIv_pct_eval : pct_update 2000 exIv.fop_profiles ["READ", "WRITE"]
    = .ok exIvAgg.fop_profiles := by
  with_unfolding_all decide

theorem exIv_agg_eval : agg_interval ["READ", "WRITE"] exIv = .ok exIvAgg := by
  unfold agg_interval
  rw [exIv_accum_eval]
  show (match pct_update
          ((FopProfile.mk 2000 0 300 15 0).normalize_sum.avg_lat
            * (FopProfile.mk 2000 0 300 15 0).normalize_sum.calls)
          exIv.fop_profiles ["READ", "WRITE"] with
        | Except.error e => (Except.error e : Except PyErr ProfileInterval)
        | Except.ok m => Except.ok { exIv with fop_profiles := m }) = Except.ok exIvAgg
  rw [exIv_norm_eval]
  have ht : (FopProfile.mk ((2000 : ℚ) / 15) 0 300 15 0).avg_lat
      * (FopProfile.mk ((2000 : ℚ) / 15) 0 300 15 0).calls = 2000 := by
    norm_num
  rw [ht, exIv_pct_eval]
  rfl

theorem exIv_lookup_write : lookupFop exIv.fop_profiles "WRITE"
    = some (FopProfile.mk 200 60 300 5 0) := by
  with_unfolding_all decide

theorem exIvAgg_lookup_write : lookupFop exIvAgg.fop_profiles "WRITE"
    = some (FopProfile.mk 200 60 300 5 50) := by
  with_unfolding_all decide

theorem exIv_spec_pct_eval : spec_pct_latency ["READ", "WRITE"] exIv.fop_profiles
    (FopProfile.mk 200 60 300 5 0) = 50 := by
  with_unfolding_all decide

/-- smallIv is a one-operation interval used to exercise the emitters on
concrete data. -/
def smallIv : ProfileInterval :=
  { bytes_read := some 0, bytes_written := some 5000000, duration := some 5,
    fop_profiles := [("READ", FopProfile.mk 2 1 3 1 0)] }

/-- smallIvAgg is `smallIv` after aggregation (its single operation carries
the whole latency, so `pct_lat = 100`). -/
def smallIvAgg : ProfileInterval :=
  { bytes_read := some 0, bytes_written := some 5000000, duration := some 5,
    fop_profiles := [("READ", FopProfile.mk 2 1 3 1 100)] }

theorem smallIv_accum_eval : accumFrom smallIv.fop_profiles (FopProfile.mk 0 0 0 0 0)
    ["READ"] = .ok (FopProfile.mk 2 0 3 1 0) := by
  with_unfolding_all decide

theorem smallIv_norm_eval : (FopProfile.mk 2 0 3 1 0).normalize_sum
    = FopProfile.mk 2 0 3 1 0 := by
  norm_num [FopProfile.normalize_sum]

theorem smallIv_pct_eval : pct_update 2 smallIv.fop_profiles ["READ"]
    = .ok smallIvAgg.fop_profiles := by
  with_unfolding_all decide

theorem smallIv_agg_eval : agg_interval ["READ"] smallIv = .ok smallIvAgg := by
  unfold agg_interval
  rw [smallIv_accum_eval]
  show (match pct_update
          ((FopProfile.mk 2 0 3 1 0).normalize_sum.avg_lat
            * (FopProfile.mk 2 0 3 1 0).normalize_sum.calls)
          smallIv.fop_profiles ["READ"] with
        | Except.error e => (Except.error e : Except PyErr ProfileInterval)
        | Except.ok m => Except.ok { smallIv with fop_profiles := m }) = Except.ok smallIvAgg
  rw [smallIv_norm_eval]
  have ht : (FopProfile.mk (2 : ℚ) 0 3 1 0).avg_lat
      * (FopProfile.mk (2 : ℚ) 0 3 1 0).calls = 2 := by
    norm_num
  rw [ht, smallIv_pct_eval]
  rfl

theorem smallIv_cols_eval : gen_columns "avg-lat" smallIvAgg.duration
    smallIvAgg.fop_profiles ["READ"] = .ok ["       2"] := by
  with_unfolding_all decide

theorem smallIv_body_eval : per_fop_body "avg-lat" ["READ"] smallIv
    = .ok ("       2", smallIvAgg) := by
  unfold per_fop_body
  rw [smallIv_agg_eval]
  show (match gen_columns "avg-lat" smallIvAgg.duration
          smallIvAgg.fop_profiles ["READ"] with
        | Except.error e => (Except.error e : Except PyErr (String × ProfileInterval))
        | Except.ok columns => Except.ok (String.intercalate "," columns, smallIvAgg))
      = Except.ok ("       2", smallIvAgg)
  rw [smallIv_cols_eval]
  rfl

theorem smallIv_row_true_eval : per_fop_row true 0 5 "avg-lat" ["READ"] 0 smallIv
    = .ok ("0,        2", smallIvAgg) := by
  unfold per_fop_row
  rw [smallIv_body_eval]
  rfl

theorem smallIv_row_false_eval : per_fop_row false 0 5 "avg-lat" ["READ"] 0 smallIv
    = .ok ("       2", smallIvAgg) := by
  unfold per_fop_row
  rw [smallIv_body_eval]
  rfl

theorem smallIv_gen_eval : gen_per_fop_stats true 0 5 ["READ"] [smallIv] "avg-lat"
    = .ok (["timestamp_ms, READ", "0,        2"], [smallIvAgg]) := by
  unfold gen_per_fop_stats gen_fop_rows
  rw [smallIv_row_true_eval]
  rfl

theorem smallIv_bytes_row_true_eval : bytes_row true 0 5 "MBps-written" 0 smallIv
    = .ok "0, 1.000   " := by
  with_unfolding_all decide

/-- C1 witness: the spec's round-trip scenario (READ calls=10 avg=100,
WRITE calls=5 avg=200) aggregates successfully and WRITE's percentage
latency equals the spec formula, whose value is exactly 50. -/
theorem C1_pct_latency_witness :
    agg_interval ["READ", "WRITE"] exIv = .ok exIvAgg ∧
    (FopProfile.mk 200 60 300 5 50).pct_lat
      = spec_pct_latency ["READ", "WRITE"] exIv.fop_profiles (FopProfile.mk 200 60 300 5 0) ∧
    spec_pct_latency ["READ", "WRITE"] exIv.fop_profiles (FopProfile.mk 200 60 300 5 0)
      = 50 :=
  ⟨exIv_agg_eval,
   C1_pct_latency ["READ", "WRITE"] exIv exIvAgg "WRITE"
     (FopProfile.mk 200 60 300 5 0) (FopProfile.mk 200 60 300 5 50)
     exIv_agg_eval (by decide) exIv_lookup_write exIvAgg_lookup_write,
   exIv_spec_pct_eval⟩

/-- C2: the interval-sequence check is vacuous.  The assert at the interval
marker compares only the internal counters `intvl` and `last_intvl` (which
always differ by one) and never uses the parsed `interval_number`, so a log
whose interval markers jump from 0 to 5, or start at 3, parses successfully
into consecutive slots with no error. -/
theorem C2_gap_accepted :
    parse_input ["=== Interval 0 stats ===", "=== Interval 5 stats ==="]
      = .ok ([ProfileInterval.init, ProfileInterval.init], []) ∧
    parse_input ["=== Interval 3 stats ==="] = .ok ([ProfileInterval.init], []) := by
  constructor <;> with_unfolding_all decide

/-- C10: a "Duration :" line reached while neither `found_interval_output`
nor `found_cumulative_output` is set (e.g. before the first interval marker,
or after "Current open fd") fails the `assert cumulative ^ interval`
check instead of being ignored. -/
theorem C10_duration_assert (st : ParseState) (ln : String)
    (h1 : (hasSub ln "Interval" && hasSub ln "stats") = false)
    (h2 : hasSub ln "Cumulative Stats" = false)
    (h3 : hasSub ln "Duration :" = true)
    (hi : st.found_interval_output = false)
    (hc : st.found_cumulative_output = false) :
    parse_line st ln = .error .assertionError := by
  simp [parse_line, h1, h2, h3, hi, hc]

/-- C10 witness: from the initial state (before any interval marker), the
line "Duration : 5" raises the assertion. -/
theorem C10_duration_assert_witness :
    parse_line initState "Duration : 5" = .error .assertionError :=
  C10_duration_assert initState "Duration : 5"
    (by with_unfolding_all decide) (by with_unfolding_all decide)
    (by with_unfolding_all decide) rfl rfl

/-- C6 counterexample: after "Interval 0 stats" opens the interval block, a
capital-S "Cumulative Stats" marker sets the cumulative flag WITHOUT closing
the interval block, so both state flags are true simultaneously, refuting
the mutual-exclusion invariant as stated. -/
theorem C6_both_flags_true :
    parse_lines initState ["=== Interval 0 stats ===", "=== Cumulative Stats ==="]
      = .ok { found_cumulative_output := true, found_interval_output := true,
              fop_names := [], last_intvl := -1, intvl := 0, sample := -1,
              intervals := [ProfileInterval.init] } := by
  with_unfolding_all decide

/-- C6 amended: only the lowercase "Cumulative stats" marker closes the
interval block and opens the cumulative block; the capital-S
"Cumulative Stats" marker only sets the cumulative flag and leaves the
interval flag unchanged (so the two flags are not mutually exclusive). -/
theorem C6_cumulative_marker_transitions (st : ParseState) :
    parse_line st "=== Cumulative Stats ==="
      = .ok { st with found_cumulative_output := true } ∧
    parse_line st "=== Cumulative stats ==="
      = .ok { st with found_interval_output := false,
                      found_cumulative_output := true } := by
  constructor <;> rfl

/-- C6 witness: the transitions instantiated at the initial state. -/
theorem C6_cumulative_marker_transitions_witness :
    parse_line initState "=== Cumulative Stats ==="
      = .ok { initState with found_cumulative_output := true } :=
  (C6_cumulative_marker_transitions initState).1

/-- C4: an operation row while in the interval block.  If the operation name
is already present in the current interval the parser raises the fatal
duplicate-record error; otherwise the row is appended once to the current
interval's fop map (with `sample` bumped and the name added to the global
name set). -/
theorem C4_duplicate_fop (st : ParseState) (iv : ProfileInterval) (fp : FopProfile)
    (ivs2 : List ProfileInterval)
    (hflag : st.found_interval_output = true)
    (hidx : pyIndex st.intervals st.intvl = .ok iv) :
    (lookupFop iv.fop_profiles "READ" = some fp →
      parse_line st "READ 10 100.0 us 50.0 us 200.0 us" = .error .duplicateFop) ∧
    (lookupFop iv.fop_profiles "READ" = none →
      pySetIndex st.intervals st.intvl
        { iv with fop_profiles := iv.fop_profiles
            ++ [("READ", FopProfile.mk 100 50 200 10 0)] } = .ok ivs2 →
      parse_line st "READ 10 100.0 us 50.0 us 200.0 us"
        = .ok { st with sample := st.sample + 1,
                        fop_names := addName st.fop_names "READ",
                        intervals := ivs2 }) := by
  have hrow : pySplit "READ 10 100.0 us 50.0 us 200.0 us"
      = ["READ", "10", "100.0", "us", "50.0", "us", "200.0", "us"] := by
    with_unfolding_all decide
  have hc1 : (hasSub "READ 10 100.0 us 50.0 us 200.0 us" "Interval"
      && hasSub "READ 10 100.0 us 50.0 us 200.0 us" "stats") = false := by
    with_unfolding_all decide
  have hc2 : hasSub "READ 10 100.0 us 50.0 us 200.0 us" "Cumulative Stats" = false := by
    with_unfolding_all decide
  have hc3 : hasSub "READ 10 100.0 us 50.0 us 200.0 us" "Duration :" = false := by
    with_unfolding_all decide
  have hc4 : hasSub "READ 10 100.0 us 50.0 us 200.0 us" "BytesRead" = false := by
    with_unfolding_all decide
  have hc5 : hasSub "READ 10 100.0 us 50.0 us 200.0 us" "BytesWritten" = false := by
    with_unfolding_all decide
  have hc6 : hasSub "READ 10 100.0 us 50.0 us 200.0 us" "Cumulative stats" = false := by
    with_unfolding_all decide
  have hc7 : hasSub "READ 10 100.0 us 50.0 us 200.0 us" "Current open fd" = false := by
    with_unfolding_all decide
  have hcaps : all_caps_match "READ 10 100.0 us 50.0 us 200.0 us" = true := by
    with_unfolding_all decide
  have ht0 : pyIndex ["READ", "10", "100.0", "us", "50.0", "us", "200.0", "us"] (0 : ℤ)
      = .ok "READ" := by with_unfolding_all decide
  have ht2 : pyFloatTok ["READ", "10", "100.0", "us", "50.0", "us", "200.0", "us"] 2
      = .ok 100 := by with_unfolding_all decide
  have ht4 : pyFloatTok ["READ", "10", "100.0", "us", "50.0", "us", "200.0", "us"] 4
      = .ok 50 := by with_unfolding_all decide
  have ht6 : pyFloatTok ["READ", "10", "100.0", "us", "50.0", "us", "200.0", "us"] 6
      = .ok 200 := by with_unfolding_all decide
  have ht1 : pyFloatTok ["READ", "10", "100.0", "us", "50.0", "us", "200.0", "us"] 1
      = .ok 10 := by with_unfolding_all decide
  constructor
  · intro hdup
    simp only [parse_line, hrow, hc1, hc2, hc3, hc4, hc5, hc6, hc7, hflag, hcaps,
      Bool.and_self, if_false, if_true, Bool.false_eq_true, ite_false, ite_true]
    simp only [fop_row_step, hidx, ht0, ht2, ht4, ht6, ht1, hdup, Option.isSome_some,
      if_true, ite_true]
  · intro hnone hset
    simp only [parse_line, hrow, hc1, hc2, hc3, hc4, hc5, hc6, hc7, hflag, hcaps,
      Bool.and_self, if_false, if_true, Bool.false_eq_true, ite_false, ite_true]
    simp only [fop_row_step, hidx, ht0, ht2, ht4, ht6, ht1, hnone, Option.isSome_none,
      if_false, Bool.false_eq_true, ite_false, hset]
    rw [hflag]

/-- c4DupState is a parser state inside interval 0 which already recorded a
READ row. -/
def c4DupState : ParseState :=
  { found_cumulative_output := false, found_interval_output := true,
    fop_names := ["READ"], last_intvl := -1, intvl := 0, sample := 0,
    intervals := [{ bytes_read := none, bytes_written := none, duration := none,
                    fop_profiles := [("READ", FopProfile.mk 1 1 1 1 0)] }] }

/-- c4FreshState is a parser state inside an interval 0 with no rows yet. -/
def c4FreshState : ParseState :=
  { found_cumulative_output := false, found_interval_output := true,
    fop_names := [], last_intvl := -1, intvl := 0, sample := -1,
    intervals := [{ bytes_read := none, bytes_written := none, duration := none,
                    fop_profiles := [] }] }

/-- C4 witness: a repeated READ row raises the duplicate error, a first READ
row is stored once. -/
theorem C4_duplicate_fop_witness :
    parse_line c4DupState "READ 10 100.0 us 50.0 us 200.0 us" = .error .duplicateFop ∧
    parse_line c4FreshState "READ 10 100.0 us 50.0 us 200.0 us"
      = .ok { c4FreshState with
              sample := c4FreshState.sample + 1,
              fop_names := addName c4FreshState.fop_names "READ",
              intervals := [{ bytes_read := none, bytes_written := none, duration := none,
                              fop_profiles := [("READ", FopProfile.mk 100 50 200 10 0)] }] } :=
  ⟨(C4_duplicate_fop c4DupState
      { bytes_read := none, bytes_written := none, duration := none,
        fop_profiles := [("READ", FopProfile.mk 1 1 1 1 0)] }
      (FopProfile.mk 1 1 1 1 0) [] rfl rfl).1 rfl,
   (C4_duplicate_fop c4FreshState
      { bytes_read := none, bytes_written := none, duration := none, fop_profiles := [] }
      (FopProfile.mk 0 0 0 0 0)
      [{ bytes_read := none, bytes_written := none, duration := none,
         fop_profiles := [("READ", FopProfile.mk 100 50 200 10 0)] }] rfl rfl).2 rfl rfl⟩

theorem padLeft_length (w : ℕ) (s : String) :
    (padLeft w s).length = (w - s.length) + s.length := by
  simp [padLeft]

theorem padLeft_ne_empty (w : ℕ) (s : String) (hw : 0 < w) : padLeft w s ≠ "" := by
  intro h
  have hlen : (padLeft w s).length = 0 := by rw [h]; rfl
  rw [padLeft_length] at hlen
  omega

/-- C5 counterexample: a parsed operation with `calls = 0` whose recorded
minimum latency is 0 (as the profiler emits for idle operations) renders the
minimum-latency field as a literal formatted zero, not as the empty
string — the empty string appears only for the `1.0e24` sentinel, which the
client parser never stores. -/
theorem C5_min_lat_renders_zero :
    (FopProfile.mk 0 0 0 0 0).calls = 0 ∧
    (FopProfile.mk 0 0 0 0 0).field2str "min-lat" (some 5) = .ok "       0" ∧
    ("       0" : String) ≠ "" := by
  refine ⟨rfl, ?_, ?_⟩ <;> with_unfolding_all decide

/-- C5 amended: for a `calls = 0` operation the derived `pct_lat` is 0 and
the maximum-latency field renders empty when the maximum is 0, but the
minimum-latency field renders empty exactly when the minimum equals the
`1.0e24` sentinel (a zero minimum renders as a formatted zero). -/
theorem C5_zero_calls_rendering (fp : FopProfile) (t : ℚ) (d : Option ℤ) :
    (fp.calls = 0 → (fp.get_pct_lat t).pct_lat = 0) ∧
    (fp.max_lat = 0 → fp.field2str "max-lat" d = .ok "") ∧
    (fp.field2str "min-lat" d = .ok "" ↔ fp.min_lat = min_lat_infinity) := by
  refine ⟨?_, ?_, ?_⟩
  · intro h
    unfold FopProfile.get_pct_lat
    split
    · rfl
    · simp [h]
  · intro h
    simp [FopProfile.field2str, stat_names, h]
  · by_cases hm : fp.min_lat = min_lat_infinity
    · simp [FopProfile.field2str, stat_names, hm]
    · simp only [FopProfile.field2str, stat_names]
      constructor
      · intro h
        simp only [List.getD] at h
        norm_num at h
        rw [if_neg hm] at h
        exact absurd (Except.ok.inj h) (padLeft_ne_empty 8 _ (by norm_num))
      · intro h
        exact absurd h hm

/-- C5 witness: at the concrete zero record, `pct_lat` becomes 0, an empty
max field is emitted, and the min field is nonempty since 0 is not the
sentinel. -/
theorem C5_zero_calls_rendering_witness :
    ((FopProfile.mk 0 0 0 0 0).get_pct_lat 7).pct_lat = 0 ∧
    (FopProfile.mk 0 0 0 0 0).field2str "max-lat" (some 5) = .ok "" ∧
    ¬((FopProfile.mk 0 0 0 0 0).field2str "min-lat" (some 5) = .ok "") :=
  ⟨(C5_zero_calls_rendering (FopProfile.mk 0 0 0 0 0) 7 (some 5)).1 rfl,
   (C5_zero_calls_rendering (FopProfile.mk 0 0 0 0 0) 7 (some 5)).2.1 rfl,
   fun h =>
     absurd ((C5_zero_calls_rendering (FopProfile.mk 0 0 0 0 0) 7 (some 5)).2.2.mp h)
       (by with_unfolding_all decide)⟩

/-- c3Iv0 is the first interval of the incomplete-log scenario: only READ. -/
def c3Iv0 : ProfileInterval :=
  { bytes_read := none, bytes_written := none, duration := none,
    fop_profiles := [("READ", FopProfile.mk 100 50 200 10 0)] }

/-- c3Iv1 is the second interval of the incomplete-log scenario: only WRITE. -/
def c3Iv1 : ProfileInterval :=
  { bytes_read := none, bytes_written := none, duration := none,
    fop_profiles := [("WRITE", FopProfile.mk 200 60 300 5 0)] }

/-- C3 counterexample: a log whose interval 0 contains only READ and whose
interval 1 contains only WRITE parses successfully — the parser does not
enforce that every observed operation name appears in every interval, so the
stated completeness invariant of parsed runs is false (interval 0 has no
WRITE entry although WRITE is in the global name set). -/
theorem C3_incomplete_op_sets_parse_ok :
    parse_input ["=== Interval 0 stats ===", "READ 10 100.0 us 50.0 us 200.0 us",
                 "=== Interval 1 stats ===", "WRITE 5 200.0 us 60.0 us 300.0 us"]
      = .ok ([c3Iv0, c3Iv1], ["READ", "WRITE"]) ∧
    "WRITE" ∈ (["READ", "WRITE"] : List String) ∧
    lookupFop c3Iv0.fop_profiles "WRITE" = none := by
  refine ⟨?_, by decide, by with_unfolding_all decide⟩
  with_unfolding_all decide

/-- C3 amended: the completeness invariant is not checked at parse time; an
interval missing an observed operation name makes the aggregation pass of
`gen_per_fop_stats` fail fatally with the uncaught KeyError (it is not
tolerated or silently defaulted). -/
theorem C3_missing_fop_fails_in_aggregation (names : List String) (f : String)
    (iv : ProfileInterval) (hf : f ∈ names) (hm : lookupFop iv.fop_profiles f = none) :
    agg_interval names iv = .error .keyError ∧
    ∀ (pb : Bool) (start esi : ℤ) (stat : String) (i : ℕ),
      per_fop_row pb start esi stat names i iv = .error .keyError := by
  have herr : accumFrom iv.fop_profiles (FopProfile.mk 0 0 0 0 0) names
      = .error .keyError :=
    accumFrom_err names iv.fop_profiles (FopProfile.mk 0 0 0 0 0) f hf hm
  have hagg : agg_interval names iv = .error .keyError := by
    unfold agg_interval
    rw [herr]
  refine ⟨hagg, ?_⟩
  intro pb start esi stat i
  unfold per_fop_row per_fop_body
  rw [hagg]
  rfl

/-- C3 witness: aggregating the READ-only interval against the global name
set fails with the KeyError. -/
theorem C3_missing_fop_witness :
    agg_interval ["READ", "WRITE"] c3Iv0 = .error .keyError ∧
    per_fop_row false 0 5 "pct-lat" ["READ", "WRITE"] 0 c3Iv0 = .error .keyError :=
  ⟨(C3_missing_fop_fails_in_aggregation ["READ", "WRITE"] "WRITE" c3Iv0 (by decide)
      (by with_unfolding_all decide)).1,
   (C3_missing_fop_fails_in_aggregation ["READ", "WRITE"] "WRITE" c3Iv0 (by decide)
      (by with_unfolding_all decide)).2 false 0 5 "pct-lat" 0⟩

/-- c7Iv is an interval whose recorded duration (10s) differs from the
configured sampling interval (5s), with 5,000,000 bytes in each direction. -/
def c7Iv : ProfileInterval :=
  { bytes_read := some 5000000, bytes_written := some 5000000,
    duration := some 10, fop_profiles := [] }

/-- C7 counterexample: with 5,000,000 bytes transferred in each direction, a
recorded interval duration of 10s and a configured sampling interval of 5s,
the emitted row of both byte-direction tables is 1.000 (bytes divided by the
configured sampling interval), not the 0.500 that the claimed formula
bytes / duration_seconds / 1,000,000 yields; the header literal is
"timestamp_ms, MB/s", not "timestamp, MB/s". -/
theorem C7_rate_ignores_recorded_duration :
    gen_output_bytes true 0 5 [c7Iv] "MBps-written"
      = .ok ["timestamp_ms, MB/s", "0, 1.000   "] ∧
    gen_output_bytes false 0 5 [c7Iv] "MBps-written" = .ok ["MB/s", "1.000   "] ∧
    gen_output_bytes true 0 5 [c7Iv] "MBps-read"
      = .ok ["timestamp_ms, MB/s", "0, 1.000   "] ∧
    gen_output_bytes false 0 5 [c7Iv] "MBps-read" = .ok ["MB/s", "1.000   "] ∧
    c7Iv.duration = some 10 ∧
    padRight 8 (fmtFixed 3 ((5000000 : ℚ) / 10 / 1000000)) = "0.500   " ∧
    ("1.000   " : String) ≠ "0.500   " ∧
    ("timestamp_ms, MB/s" : String) ≠ "timestamp, MB/s" := by
  refine ⟨?_, ?_, ?_, ?_, rfl, ?_, ?_, ?_⟩ <;> with_unfolding_all decide

theorem gen_bytes_rows_get (pbench : Bool) (start esi : ℤ) (direction : String)
    (ivs : List ProfileInterval) :
    ∀ (j0 k : ℕ) (rows : List String) (iv : ProfileInterval),
      gen_bytes_rows pbench start esi direction j0 ivs = .ok rows →
      ivs[k]? = some iv →
      ∃ s, bytes_row pbench start esi direction (j0 + k) iv = .ok s ∧
        rows[k]? = some s := by
  induction ivs with
  | nil => intro j0 k rows iv h hk; simp at hk
  | cons iv0 rest ih =>
    intro j0 k rows iv h hk
    unfold gen_bytes_rows at h
    cases hb0 : bytes_row pbench start esi direction j0 iv0 with
    | error e => rw [hb0] at h; exact absurd h (by simp)
    | ok r =>
      rw [hb0] at h
      cases hrs : gen_bytes_rows pbench start esi direction (j0 + 1) rest with
      | error e => rw [hrs] at h; exact absurd h (by simp)
      | ok rs =>
        rw [hrs] at h
        have hrows : rows = r :: rs := (Except.ok.inj h).symm
        subst hrows
        cases k with
        | zero =>
          have hiv : iv0 = iv := by simpa using hk
          subst hiv
          exact ⟨r, by simpa using hb0, by simp⟩
        | succ k2 =>
          have hk2 : rest[k2]? = some iv := by simpa using hk
          obtain ⟨s, hs, hr⟩ := ih (j0 + 1) k2 rs iv hrs hk2
          refine ⟨s, ?_, by simpa using hr⟩
          have hadd : j0 + (k2 + 1) = j0 + 1 + k2 := by omega
          rw [hadd]
          exact hs

/-- C7 amended: for either byte direction (MBps-read selects bytes_read,
MBps-written selects bytes_written), a successfully emitted csv file begins
with the header "timestamp_ms, MB/s" (or "MB/s" alone when pbench graphing
is off), and the data row for interval j is that direction's byte count
divided by the configured sampling interval and by 1,000,000, rendered with
3 decimal places (printf `%-8.3f`), after the optional timestamp prefix. -/
theorem C7_mbps_row_formula (pbench : Bool) (start esi : ℤ) (direction : String)
    (ivs : List ProfileInterval) (ls : List String) (j : ℕ) (iv : ProfileInterval)
    (b : ℤ) (hd : direction ∈ directions)
    (hb : (if direction = "MBps-read" then iv.bytes_read else iv.bytes_written)
        = some b)
    (h0 : ¬((esi : ℚ) = 0))
    (hout : gen_output_bytes pbench start esi ivs direction = .ok ls)
    (hj : ivs[j]? = some iv) :
    ls.head? = some ((if pbench then "timestamp_ms, " else "") ++ "MB/s") ∧
    ls[j + 1]? = some ((if pbench then
        toString (gen_timestamp_ms start esi j) ++ ", " else "")
      ++ padRight 8 (fmtFixed 3 ((b : ℚ) / (esi : ℚ) / 1000000))) := by
  have hcum : ("interval" = "cumulative") = False := by simp
  have hrow : bytes_row pbench start esi direction j iv
      = .ok ((if pbench then toString (gen_timestamp_ms start esi j) ++ ", " else "")
        ++ padRight 8 (fmtFixed 3 ((b : ℚ) / (esi : ℚ) / 1000000))) := by
    have hd2 : direction = "MBps-read" ∨ direction = "MBps-written" := by
      simpa [directions] using hd
    rcases hd2 with h1 | h1
    · subst h1
      have hdir : hasSub "MBps-read" "read" = true := by with_unfolding_all decide
      simp at hb
      simp [bytes_row, bytes_body, hdir, hb, get_interval, hcum, h0, Except.map]
    · subst h1
      have hdir : hasSub "MBps-written" "read" = false := by
        with_unfolding_all decide
      have hne : ¬(("MBps-written" : String) = "MBps-read") := by decide
      rw [if_neg hne] at hb
      simp [bytes_row, bytes_body, hdir, hb, get_interval, hcum, h0, Except.map]
  unfold gen_output_bytes at hout
  cases hrs : gen_bytes_rows pbench start esi direction 0 ivs with
  | error e => rw [hrs] at hout; exact absurd hout (by simp)
  | ok rows =>
    rw [hrs] at hout
    have hls : ls = ((if pbench then "timestamp_ms, " else "") ++ "MB/s") :: rows :=
      (Except.ok.inj hout).symm
    subst hls
    refine ⟨rfl, ?_⟩
    obtain ⟨s, hs, hr⟩ :=
      gen_bytes_rows_get pbench start esi direction ivs 0 j rows iv hrs hj
    have hsj : bytes_row pbench start esi direction j iv = .ok s := by
      simpa using hs
    have hes : (if pbench then toString (gen_timestamp_ms start esi j) ++ ", " else "")
        ++ padRight 8 (fmtFixed 3 ((b : ℚ) / (esi : ℚ) / 1000000)) = s :=
      Except.ok.inj (hrow.symm.trans hsj)
    rw [hes]
    simpa using hr

/-- C7 witness: the MBps-read table for one interval with 5,000,000 bytes
read and sampling interval 5 carries the "timestamp_ms, MB/s" header and the
timestamped row value 1.000. -/
theorem C7_mbps_row_formula_witness :
    (["timestamp_ms, MB/s", "0, 1.000   "] : List String).head?
        = some ((if true then "timestamp_ms, " else "") ++ "MB/s") ∧
    (["timestamp_ms, MB/s", "0, 1.000   "] : List String)[(0 : ℕ) + 1]?
        = some ((if true then toString (gen_timestamp_ms 0 5 (0 : ℕ)) ++ ", " else "")
          ++ padRight 8 (fmtFixed 3 (((5000000 : ℤ) : ℚ) / ((5 : ℤ) : ℚ) / 1000000))) :=
  C7_mbps_row_formula true 0 5 "MBps-read" [c7Iv]
    ["timestamp_ms, MB/s", "0, 1.000   "] 0 c7Iv 5000000
    (by decide) (by simp [c7Iv]) (by norm_num)
    (by with_unfolding_all decide) rfl

/-- C8: every emitted data row carries a leading timestamp column, whose
value is `start_time + index * sample_interval * 1000` milliseconds, exactly
when the pbench switch is on; with the switch off the same input produces
only the statistic/byte columns (the rest of the row is unchanged). -/
theorem C8_timestamp_column (start esi : ℤ) (j : ℕ) (iv iv2 : ProfileInterval)
    (direction stat : String) (names : List String) (s row : String)
    (hb : bytes_row true start esi direction j iv = .ok s)
    (hf : per_fop_row true start esi stat names j iv = .ok (row, iv2)) :
    gen_timestamp_ms start esi j = start + esi * (j : ℤ) * 1000 ∧
    (∃ body, bytes_row false start esi direction j iv = .ok body ∧
      s = toString (gen_timestamp_ms start esi j) ++ ", " ++ body) ∧
    (∃ body, per_fop_row false start esi stat names j iv = .ok (body, iv2) ∧
      row = toString (gen_timestamp_ms start esi j) ++ ", " ++ body) := by
  refine ⟨rfl, ?_, ?_⟩
  · unfold bytes_row at hb ⊢
    cases hbb : bytes_body esi direction j iv with
    | error e => rw [hbb] at hb; exact absurd hb (by simp [Except.map])
    | ok body =>
      rw [hbb] at hb
      simp only [Except.map, if_true, ite_true] at hb
      refine ⟨body, ?_, ?_⟩
      · rfl
      · exact (Except.ok.inj hb).symm
  · unfold per_fop_row at hf ⊢
    cases hq : per_fop_body stat names iv with
    | error e => rw [hq] at hf; exact absurd hf (by simp [Except.map])
    | ok q =>
      rw [hq] at hf
      simp only [Except.map, if_true, ite_true] at hf
      have hpair := Except.ok.inj hf
      have hrow : toString (gen_timestamp_ms start esi j) ++ ", " ++ q.1 = row :=
        congrArg Prod.fst hpair
      have hiv : q.2 = iv2 := congrArg Prod.snd hpair
      refine ⟨q.1, ?_, hrow.symm⟩
      rw [← hiv]
      rfl

/-- C8 witness: the timestamp formula at index 0 with start 0 and sampling
interval 5, discharged on a concrete one-operation interval. -/
theorem C8_timestamp_column_witness :
    gen_timestamp_ms 0 5 ((0 : ℕ) : ℤ) = 0 + 5 * ((0 : ℕ) : ℤ) * 1000 :=
  (C8_timestamp_column 0 5 0 smallIv smallIvAgg "MBps-written" "avg-lat" ["READ"]
    "0, 1.000   " "0,        2" smallIv_bytes_row_true_eval smallIv_row_true_eval).1

theorem agg_interval_frame (names : List String) (iv iv2 : ProfileInterval)
    (h : agg_interval names iv = .ok iv2) :
    iv2.bytes_read = iv.bytes_read ∧ iv2.bytes_written = iv.bytes_written ∧
    iv2.duration = iv.duration ∧
    iv2.fop_profiles.map Prod.fst = iv.fop_profiles.map Prod.fst ∧
    ∀ k fp2, lookupFop iv2.fop_profiles k = some fp2 →
      ∃ fp, lookupFop iv.fop_profiles k = some fp ∧ sameRaw fp2 fp := by
  obtain ⟨a, m2, ha, hm, hiv2⟩ := agg_interval_ok names iv iv2 h
  subst hiv2
  exact ⟨rfl, rfl, rfl, pct_update_map_fst _ names iv.fop_profiles m2 hm,
    fun k fp2 hk => pct_update_frame _ names iv.fop_profiles m2 hm k fp2 hk⟩

theorem per_fop_row_ok (pb : Bool) (start esi : ℤ) (stat : String)
    (names : List String) (i : ℕ) (iv iv2 : ProfileInterval) (row : String)
    (h : per_fop_row pb start esi stat names i iv = .ok (row, iv2)) :
    agg_interval names iv = .ok iv2 := by
  unfold per_fop_row per_fop_body at h
  cases ha : agg_interval names iv with
  | error e => rw [ha] at h; exact absurd h (by simp [Except.map])
  | ok iv3 =>
    rw [ha] at h
    have h2 : Except.map
        (fun p : String × ProfileInterval =>
          ((if pb then toString (gen_timestamp_ms start esi i) ++ ", " else "") ++ p.1, p.2))
        (match gen_columns stat iv3.duration iv3.fop_profiles names with
         | Except.error e => (Except.error e : Except PyErr (String × ProfileInterval))
         | Except.ok columns => Except.ok (String.intercalate "," columns, iv3))
        = Except.ok (row, iv2) := h
    cases hg : gen_columns stat iv3.duration iv3.fop_profiles names with
    | error e => rw [hg] at h2; exact absurd h2 (by simp [Except.map])
    | ok cols =>
      rw [hg] at h2
      simp only [Except.map] at h2
      have hiv : iv3 = iv2 := congrArg Prod.snd (Except.ok.inj h2)
      rw [← hiv]

theorem gen_fop_rows_frame (pb : Bool) (start esi : ℤ) (stat : String)
    (names : List String) :
    ∀ (intervals : List ProfileInterval) (i : ℕ) (rows : List String)
      (ivs2 : List ProfileInterval),
    gen_fop_rows pb start esi stat names i intervals = .ok (rows, ivs2) →
    ivs2.length = intervals.length ∧
    ∀ k iv2, ivs2.get? k = some iv2 →
      ∃ iv, intervals.get? k = some iv ∧ agg_interval names iv = .ok iv2 := by
  intro intervals
  induction intervals with
  | nil =>
    intro i rows ivs2 h
    simp only [gen_fop_rows] at h
    have hp := Except.ok.inj h
    have hivs : ivs2 = [] := (congrArg Prod.snd hp).symm
    subst hivs
    exact ⟨rfl, fun k iv2 hk => by simp at hk⟩
  | cons iv rest ih =>
    intro i rows ivs2 h
    rw [gen_fop_rows] at h
    cases hr : per_fop_row pb start esi stat names i iv with
    | error e => rw [hr] at h; exact absurd h (by simp)
    | ok p =>
      rw [hr] at h
      have h2 : (match gen_fop_rows pb start esi stat names (i + 1) rest with
                 | Except.error e =>
                   (Except.error e : Except PyErr (List String × List ProfileInterval))
                 | Except.ok prest => Except.ok (p.1 :: prest.1, p.2 :: prest.2))
          = Except.ok (rows, ivs2) := h
      cases hrest : gen_fop_rows pb start esi stat names (i + 1) rest with
      | error e => rw [hrest] at h2; exact absurd h2 (by simp)
      | ok prest =>
        rw [hrest] at h2
        have hp := Except.ok.inj h2
        have hivs : ivs2 = p.2 :: prest.2 := (congrArg Prod.snd hp).symm
        subst hivs
        obtain ⟨hlen, hall⟩ := ih (i + 1) prest.1 prest.2 hrest
        constructor
        · simp [hlen]
        · intro k iv2 hk
          cases k with
          | zero =>
            have : p.2 = iv2 := by simpa using hk
            refine ⟨iv, by simp, ?_⟩
            rw [← this]
            exact per_fop_row_ok pb start esi stat names i iv p.2 p.1
              (by rw [hr])
          | succ k2 =>
            simp only [List.get?] at hk ⊢
            exact hall k2 iv2 hk

/-- C9: the aggregation/emission pass mutates only the derived `pct_lat`
field: for every emitted statistic table the returned interval sequence has
the same length and order, each interval keeps its byte counters and
duration, its operation-name list (with order), and every operation's
parsed `avg_lat`, `min_lat`, `max_lat` and `calls`; no new intervals are
created. -/
theorem C9_aggregation_frame (pb : Bool) (start esi : ℤ) (names : List String)
    (intervals : List ProfileInterval) (stat : String) (lines : List String)
    (ivs2 : List ProfileInterval)
    (h : gen_per_fop_stats pb start esi names intervals stat = .ok (lines, ivs2)) :
    ivs2.length = intervals.length ∧
    ∀ i iv2, ivs2.get? i = some iv2 → ∃ iv, intervals.get? i = some iv ∧
      iv2.bytes_read = iv.bytes_read ∧ iv2.bytes_written = iv.bytes_written ∧
      iv2.duration = iv.duration ∧
      iv2.fop_profiles.map Prod.fst = iv.fop_profiles.map Prod.fst ∧
      ∀ k fp2, lookupFop iv2.fop_profiles k = some fp2 →
        ∃ fp, lookupFop iv.fop_profiles k = some fp ∧ sameRaw fp2 fp := by
  unfold gen_per_fop_stats at h
  cases hg : gen_fop_rows pb start esi stat names 0 intervals with
  | error e => rw [hg] at h; exact absurd h (by simp)
  | ok p =>
    rw [hg] at h
    have hp : ivs2 = p.2 := (congrArg Prod.snd (Except.ok.inj h)).symm
    subst hp
    obtain ⟨hlen, hall⟩ := gen_fop_rows_frame pb start esi stat names intervals 0 p.1 p.2
      (by rw [hg])
    refine ⟨hlen, ?_⟩
    intro i iv2 hk
    obtain ⟨iv, hiv, hagg⟩ := hall i iv2 hk
    obtain ⟨f1, f2, f3, f4, f5⟩ := agg_interval_frame names iv iv2 hagg
    exact ⟨iv, hiv, f1, f2, f3, f4, f5⟩

/-- C9 witness: on the one-operation interval the emitted pass returns a
sequence of the same length whose interval keeps its duration and its
operation's parsed fields. -/
theorem C9_aggregation_frame_witness :
    ([smallIvAgg] : List ProfileInterval).length = [smallIv].length ∧
    smallIvAgg.duration = smallIv.duration := by
  have h := C9_aggregation_frame true 0 5 ["READ"] [smallIv] "avg-lat"
    ["timestamp_ms, READ", "0,        2"] [smallIvAgg] smallIv_gen_eval
  refine ⟨h.1, ?_⟩
  obtain ⟨iv, hiv, _, _, hdur, _, _⟩ := h.2 0 smallIvAgg rfl
  have hivs : smallIv = iv := by simpa using hiv
  rw [hdur, ← hivs]

end Gl
